import Mathlib

/-!
Shallow embedding of the routing-and-fallback engine of `my-llm-router`
(`src/app/actions/llmActions.ts` together with the catalog tables of
`lib/models`), and proofs of the claims about it.

Modelling conventions:
* JS strings are Lean `String`s; the regex tests of `classifyPrompt` are
  translated into explicit character-list scanners (word boundaries of `\b`
  are "previous/next character is not a word character").
* The process environment (which provider API keys are configured) is an
  abstract function `ProviderType → Bool`.
* The in-memory health `Map` is a function `ProviderType → Option ProviderHealth`;
  wall-clock time is an explicit `now : Nat` (milliseconds), held fixed during
  one invocation.  Wall-clock latency fields are not modelled.
* The external completion service (`notDiamond.create`) is an abstract oracle
  `svc : Nat → SvcResult` indexed by the number of calls already made, so an
  adversarial service is just an arbitrary oracle.
* Money amounts are exact rationals `ℚ`.
-/

namespace LlmRouter

/-- Type `ProviderType` from `lib/models`. -/
inductive ProviderType where
  | openai | anthropic | google | mistral | togetherai
deriving DecidableEq, Repr, Fintype

/-- Type `PromptType` from `lib/models`. -/
inductive PromptType where
  | summarization | code_generation | qa_simple | qa_complex
  | creative_writing | analysis | translation | math_logic | general_chat
deriving DecidableEq, Repr, Fintype

/-- Type `RoutingPriority` from `lib/models`. -/
inductive RoutingPriority where
  | cost | latency | quality
deriving DecidableEq, Repr, Fintype

/-- The 16 keys of `MODEL_CONFIGS` from `lib/models`, as an enumeration. -/
inductive ModelName where
  | gpt_4o | gpt_4_turbo | gpt_4o_mini | gpt_3_5_turbo
  | claude_3_5_sonnet | claude_3_opus | claude_3_haiku | claude_3_5_haiku
  | gemini_1_5_pro | gemini_1_5_flash
  | mistral_large | mistral_small | open_mixtral_8x7b
  | llama_3_1_70b | qwen_2_5_72b | mixtral_8x7b
deriving DecidableEq, Repr, Fintype

/-- The string key of each model in `MODEL_CONFIGS`. -/
def modelKey : ModelName → String
  | .gpt_4o => "openai/gpt-4o"
  | .gpt_4_turbo => "openai/gpt-4-turbo"
  | .gpt_4o_mini => "openai/gpt-4o-mini"
  | .gpt_3_5_turbo => "openai/gpt-3.5-turbo"
  | .claude_3_5_sonnet => "anthropic/claude-3-5-sonnet-20240620"
  | .claude_3_opus => "anthropic/claude-3-opus-20240229"
  | .claude_3_haiku => "anthropic/claude-3-haiku-20240307"
  | .claude_3_5_haiku => "anthropic/claude-3-5-haiku-20241022"
  | .gemini_1_5_pro => "google/gemini-1.5-pro-latest"
  | .gemini_1_5_flash => "google/gemini-1.5-flash-latest"
  | .mistral_large => "mistral/mistral-large-latest"
  | .mistral_small => "mistral/mistral-small-latest"
  | .open_mixtral_8x7b => "mistral/open-mixtral-8x7b"
  | .llama_3_1_70b => "togetherai/meta-llama/Meta-Llama-3.1-70B-Instruct-Turbo"
  | .qwen_2_5_72b => "togetherai/Qwen/Qwen2.5-72B-Instruct"
  | .mixtral_8x7b => "togetherai/mistralai/Mixtral-8x7B-Instruct-v0.1"

/-- The string name of each provider, as used in env-var and error matching. -/
def providerStr : ProviderType → String
  | .openai => "openai"
  | .anthropic => "anthropic"
  | .google => "google"
  | .mistral => "mistral"
  | .togetherai => "togetherai"

/-- Per-million-token prices (`cost` field of a model config). -/
structure ModelCost where
  input : ℚ
  output : ℚ
deriving DecidableEq, Repr

/-- A model descriptor from `MODEL_CONFIGS`. -/
structure ModelConfig where
  provider : ProviderType
  quality : Nat
  latency : Nat
  cost : ModelCost
deriving DecidableEq, Repr

/-- Table `MODEL_CONFIGS` from `lib/models`. -/
def MODEL_CONFIGS : ModelName → ModelConfig
  | .gpt_4o => ⟨.openai, 9, 7, ⟨5, 15⟩⟩
  | .gpt_4_turbo => ⟨.openai, 10, 5, ⟨10, 30⟩⟩
  | .gpt_4o_mini => ⟨.openai, 7, 9, ⟨0.15, 0.60⟩⟩
  | .gpt_3_5_turbo => ⟨.openai, 6, 9, ⟨0.50, 1.50⟩⟩
  | .claude_3_5_sonnet => ⟨.anthropic, 9, 7, ⟨3, 15⟩⟩
  | .claude_3_opus => ⟨.anthropic, 10, 4, ⟨15, 75⟩⟩
  | .claude_3_haiku => ⟨.anthropic, 7, 9, ⟨0.25, 1.25⟩⟩
  | .claude_3_5_haiku => ⟨.anthropic, 8, 9, ⟨1, 5⟩⟩
  | .gemini_1_5_pro => ⟨.google, 9, 7, ⟨3.50, 10.50⟩⟩
  | .gemini_1_5_flash => ⟨.google, 7, 10, ⟨0.35, 1.05⟩⟩
  | .mistral_large => ⟨.mistral, 9, 7, ⟨4, 12⟩⟩
  | .mistral_small => ⟨.mistral, 7, 8, ⟨1, 3⟩⟩
  | .open_mixtral_8x7b => ⟨.mistral, 8, 8, ⟨0.70, 0.70⟩⟩
  | .llama_3_1_70b => ⟨.togetherai, 9, 7, ⟨0.90, 0.90⟩⟩
  | .qwen_2_5_72b => ⟨.togetherai, 9, 7, ⟨0.90, 0.90⟩⟩
  | .mixtral_8x7b => ⟨.togetherai, 8, 8, ⟨0.60, 0.60⟩⟩

/-- List `Object.keys(MODEL_CONFIGS)`, in declaration order. -/
def allModelNames : List ModelName :=
  [.gpt_4o, .gpt_4_turbo, .gpt_4o_mini, .gpt_3_5_turbo,
   .claude_3_5_sonnet, .claude_3_opus, .claude_3_haiku, .claude_3_5_haiku,
   .gemini_1_5_pro, .gemini_1_5_flash,
   .mistral_large, .mistral_small, .open_mixtral_8x7b,
   .llama_3_1_70b, .qwen_2_5_72b, .mixtral_8x7b]

/-- Table `DEFAULT_ROUTING_RULES` from `lib/models`. -/
def DEFAULT_ROUTING_RULES : PromptType → RoutingPriority → List ModelName
  | .general_chat, .cost => [.gemini_1_5_flash, .claude_3_haiku, .gpt_3_5_turbo]
  | .general_chat, .latency => [.gemini_1_5_flash, .claude_3_5_haiku, .gpt_4o_mini]
  | .general_chat, .quality => [.claude_3_5_sonnet, .gpt_4o, .gemini_1_5_pro]
  | .code_generation, .cost => [.claude_3_haiku, .open_mixtral_8x7b, .gpt_4o_mini]
  | .code_generation, .latency => [.claude_3_5_haiku, .gemini_1_5_flash, .gpt_4o_mini]
  | .code_generation, .quality => [.gpt_4_turbo, .claude_3_opus, .qwen_2_5_72b]
  | .summarization, .cost => [.claude_3_haiku, .gemini_1_5_flash, .gpt_3_5_turbo]
  | .summarization, .latency => [.gemini_1_5_flash, .claude_3_5_haiku, .gpt_4o_mini]
  | .summarization, .quality => [.gpt_4_turbo, .claude_3_5_sonnet, .gemini_1_5_pro]
  | .qa_simple, .cost => [.gemini_1_5_flash, .claude_3_haiku, .gpt_3_5_turbo]
  | .qa_simple, .latency => [.gemini_1_5_flash, .claude_3_5_haiku, .gpt_4o_mini]
  | .qa_simple, .quality => [.claude_3_5_sonnet, .gpt_4o, .gemini_1_5_pro]
  | .qa_complex, .cost => [.claude_3_5_sonnet, .gpt_4o, .gemini_1_5_pro]
  | .qa_complex, .latency => [.gpt_4o, .claude_3_5_sonnet, .gemini_1_5_pro]
  | .qa_complex, .quality => [.gpt_4_turbo, .claude_3_opus, .gemini_1_5_pro]
  | .creative_writing, .cost => [.claude_3_haiku, .open_mixtral_8x7b, .gpt_4o_mini]
  | .creative_writing, .latency => [.claude_3_5_haiku, .gemini_1_5_flash, .gpt_4o]
  | .creative_writing, .quality => [.claude_3_opus, .gpt_4_turbo, .mistral_large]
  | .analysis, .cost => [.claude_3_5_sonnet, .gemini_1_5_pro, .gpt_4o]
  | .analysis, .latency => [.gemini_1_5_pro, .claude_3_5_sonnet, .gpt_4o]
  | .analysis, .quality => [.gpt_4_turbo, .claude_3_opus, .gemini_1_5_pro]
  | .translation, .cost => [.gemini_1_5_flash, .claude_3_haiku, .gpt_3_5_turbo]
  | .translation, .latency => [.gemini_1_5_flash, .claude_3_5_haiku, .gpt_4o_mini]
  | .translation, .quality => [.gpt_4o, .gemini_1_5_pro, .claude_3_5_sonnet]
  | .math_logic, .cost => [.gemini_1_5_pro, .claude_3_5_sonnet, .gpt_4o]
  | .math_logic, .latency => [.gemini_1_5_flash, .gpt_4o, .gemini_1_5_pro]
  | .math_logic, .quality => [.gpt_4_turbo, .claude_3_opus, .gemini_1_5_pro]

-- ---------------------------------------------------------------------------
-- Health Check System (`providerHealth`, `reportFailure`, `reportSuccess`)
-- ---------------------------------------------------------------------------

/-- Record `ProviderHealth`: failure count and optional cooldown deadline
(milliseconds). -/
structure ProviderHealth where
  failureCount : Nat
  timeoutUntil : Option Nat
deriving DecidableEq, Repr

/-- The in-memory `providerHealth` map. -/
def HealthMap : Type := ProviderType → Option ProviderHealth

/-- Function `reportFailure`: increment the failure count (creating the entry if
absent); once the count reaches 3, set a 5-minute cooldown. -/
def reportFailure (h : HealthMap) (p : ProviderType) (now : Nat) : HealthMap :=
  let status := (h p).getD ⟨0, none⟩
  let fc := status.failureCount + 1
  let status2 : ProviderHealth :=
    ⟨fc, if fc ≥ 3 then some (now + 5 * 60 * 1000) else status.timeoutUntil⟩
  fun q => if q = p then some status2 else h q

/-- Function `reportSuccess`: if the provider has an entry, reset its failure count
and clear its cooldown. -/
def reportSuccess (h : HealthMap) (p : ProviderType) : HealthMap :=
  match h p with
  | some _ => fun q => if q = p then some ⟨0, none⟩ else h q
  | none => h

/-- The cooldown test of `getAvailableProviders`:
`health?.timeoutUntil && health.timeoutUntil > new Date()`. -/
def isTimedOut (h : HealthMap) (now : Nat) (p : ProviderType) : Bool :=
  match h p with
  | some st =>
    match st.timeoutUntil with
    | some t => decide (now < t)
    | none => false
  | none => false

-- ---------------------------------------------------------------------------
-- Text utilities: the character-level semantics of the regex tests used by
-- `classifyPrompt` and of `String.prototype.includes` / `startsWith`.
-- ---------------------------------------------------------------------------

/-- JS `a.startsWith(b)` on character lists. -/
def startsWithList : List Char → List Char → Bool
  | [], _ => true
  | _ :: _, [] => false
  | a :: as, b :: bs => a == b && startsWithList as bs

/-- JS `hay.includes(needle)` on character lists. -/
def containsSub (needle : List Char) : List Char → Bool
  | [] => startsWithList needle []
  | c :: rest => startsWithList needle (c :: rest) || containsSub needle rest

/-- JS `hay.includes(needle)` on strings. -/
def containsSubStr (needle hay : String) : Bool :=
  containsSub needle.toList hay.toList

/-- Does `hay` contain any of the given substrings? -/
def containsAnySub (needles : List String) (hay : List Char) : Bool :=
  needles.any fun n => containsSub n.toList hay

/-- JS `\w`: ASCII letter, digit or underscore. -/
def isWordChar (c : Char) : Bool :=
  c.isAlphanum || c == '_'

/-- JS `s.toLowerCase()` (ASCII). -/
def lowerChars (s : List Char) : List Char :=
  s.map Char.toLower

/-- JS `s.toLowerCase()` on strings (ASCII). -/
def lowerString (s : String) : String :=
  String.mk (lowerChars s.toList)

/-- A `\b kw \b` match anchored at the current position: the previous
character (if any) is not a word character, `kw` occurs here, and the
character right after it (if any) is not a word character. -/
def matchBoundedHere (kw : List Char) (prev : Option Char) (s : List Char) : Bool :=
  (match prev with
   | none => true
   | some c => !isWordChar c) &&
  startsWithList kw s &&
  (match s.drop kw.length with
   | [] => true
   | c :: _ => !isWordChar c)

/-- Does `\b kw \b` match anywhere in the remaining text, given the
character just before it? -/
def hasBoundedMatch (kw : List Char) : Option Char → List Char → Bool
  | prev, [] => matchBoundedHere kw prev []
  | prev, c :: rest => matchBoundedHere kw prev (c :: rest) || hasBoundedMatch kw (some c) rest

/-- Regex `\b(kw1|kw2|...)\b` on a character list. -/
def anyBounded (kws : List String) (s : List Char) : Bool :=
  kws.any fun kw => hasBoundedMatch kw.toList none s

/-- Regex tail `\w+>`: a run of at least one word character closed by `>`. -/
def tagClose : List Char → Bool
  | [] => false
  | c :: rest => c == '>' || (isWordChar c && tagClose rest)

/-- After a `<`: one word character then `tagClose`. -/
def tagBody : List Char → Bool
  | [] => false
  | c :: rest => isWordChar c && tagClose rest

/-- Regex `/<\w+>/`: somewhere a `<`, then one or more word characters, then `>`. -/
def hasTag : List Char → Bool
  | [] => false
  | c :: rest => (c == '<' && tagBody rest) || hasTag rest

-- ---------------------------------------------------------------------------
-- `classifyPrompt`
-- ---------------------------------------------------------------------------

/-- The character class `[\d\+\-\*\/=]` of the math rule. -/
def isMathChar (c : Char) : Bool :=
  c.isDigit || c == '+' || c == '-' || c == '*' || c == '/' || c == '='

/-- Rule 1: `/\b(calculate|solve|equation|math|logic|proof|theorem)\b/` on the
lowercased prompt, or `/[\d\+\-\*\/=]/` on the raw prompt. -/
def mathRule (prompt : String) : Bool :=
  anyBounded ["calculate", "solve", "equation", "math", "logic", "proof", "theorem"]
    (lowerChars prompt.toList)
  || prompt.toList.any isMathChar

/-- Rule 2: ``/```|def |function |class |import |<\w+>/`` on the raw prompt, or
the code keyword group on the lowercased prompt. -/
def codeRule (prompt : String) : Bool :=
  containsAnySub ["```", "def ", "function ", "class ", "import "] prompt.toList
  || hasTag prompt.toList
  || anyBounded ["code", "python", "javascript", "react", "sql", "debug", "fix", "implement"]
    (lowerChars prompt.toList)

/-- Rule 3: the summarization keyword group. -/
def summarizationRule (prompt : String) : Bool :=
  anyBounded ["summarize", "tldr", "brief", "outline", "key points", "recap"]
    (lowerChars prompt.toList)

/-- Rule 4: the translation keyword group. -/
def translationRule (prompt : String) : Bool :=
  anyBounded ["translate", "in french", "in spanish", "in german"]
    (lowerChars prompt.toList)

/-- Rule 5: the analysis keyword group. -/
def analysisRule (prompt : String) : Bool :=
  anyBounded ["analyze", "analysis", "compare", "contrast", "evaluate", "assess"]
    (lowerChars prompt.toList)

/-- Rule 6: the creative-writing keyword group. -/
def creativeRule (prompt : String) : Bool :=
  anyBounded ["story", "poem", "creative", "narrative", "write a scene"]
    (lowerChars prompt.toList)

/-- Rule 7: `prompt.length > 250` or the detailed-explanation keyword group. -/
def qaComplexRule (prompt : String) : Bool :=
  decide (prompt.length > 250)
  || anyBounded ["explain in detail", "comprehensive", "thorough", "elaborate"]
    (lowerChars prompt.toList)

/-- Rule 8: `/\?|what is|how to|who was|why does/` on the lowercased prompt
(plain substring alternation, no word boundaries). -/
def qaSimpleRule (prompt : String) : Bool :=
  containsAnySub ["?", "what is", "how to", "who was", "why does"]
    (lowerChars prompt.toList)

/-- Function `classifyPrompt` from `llmActions.ts` (lines 58-71): first matching rule
wins, `general_chat` otherwise. -/
def classifyPrompt (prompt : String) : PromptType :=
  if mathRule prompt then .math_logic
  else if codeRule prompt then .code_generation
  else if summarizationRule prompt then .summarization
  else if translationRule prompt then .translation
  else if analysisRule prompt then .analysis
  else if creativeRule prompt then .creative_writing
  else if qaComplexRule prompt then .qa_complex
  else if qaSimpleRule prompt then .qa_simple
  else .general_chat

-- ---------------------------------------------------------------------------
-- `getAvailableProviders`, `calculateActualCost`, `routePrompt`
-- ---------------------------------------------------------------------------

/-- One entry of the `providers` list built by `getAvailableProviders`. -/
structure Candidate where
  provider : ProviderType
  model : ModelName
deriving DecidableEq, Repr

/-- The `potentialProviders` list of `getAvailableProviders`. -/
def potentialProviders : List ProviderType :=
  [.openai, .anthropic, .google, .mistral, .togetherai]

/-- Function `getAvailableProviders` (lines 39-56): for each potential provider
with a configured API key, not excluded and not timed out, push every catalog
model whose key starts with that provider name followed by a slash.  The
per-provider blocks are concatenated in `potentialProviders` order, exactly as
the push loop does. -/
def getAvailableProviders (env : ProviderType → Bool) (h : HealthMap) (now : Nat)
    (excludeProviders : List ProviderType) : List Candidate :=
  potentialProviders.flatMap fun p =>
    if env p && !(excludeProviders.contains p) && !(isTimedOut h now p) then
      (allModelNames.filter fun m =>
        startsWithList (providerStr p ++ "/").toList (modelKey m).toList).map
        fun m => { provider := p, model := m }
    else []

/-- The token usage record reported by the completion service. -/
structure Usage where
  prompt_tokens : Nat
  completion_tokens : Nat
deriving DecidableEq, Repr

/-- Function `calculateActualCost` (lines 73-79).  The config lookup always
succeeds here because `ModelName` is the catalog key type, and `usage` is
always present, so the `return 0` guard of the source is unreachable. -/
def calculateActualCost (modelName : ModelName) (usage : Usage) : ℚ :=
  (usage.prompt_tokens : ℚ) / 1000000 * (MODEL_CONFIGS modelName).cost.input
  + (usage.completion_tokens : ℚ) / 1000000 * (MODEL_CONFIGS modelName).cost.output

/-- Record `RoutingDecision` from `lib/models`. -/
structure RoutingDecision where
  promptType : PromptType
  selectedModels : List Candidate
  reasoning : String
  estimatedCost : ℚ
  priority : RoutingPriority
deriving DecidableEq, Repr

/-- Display name of a prompt category, used in the reasoning template. -/
def promptTypeStr : PromptType → String
  | .summarization => "summarization"
  | .code_generation => "code_generation"
  | .qa_simple => "qa_simple"
  | .qa_complex => "qa_complex"
  | .creative_writing => "creative_writing"
  | .analysis => "analysis"
  | .translation => "translation"
  | .math_logic => "math_logic"
  | .general_chat => "general_chat"

/-- Display name of a priority, used in the reasoning template. -/
def priorityStr : RoutingPriority → String
  | .cost => "cost"
  | .latency => "latency"
  | .quality => "quality"

/-- Function `routePrompt` (lines 81-101): classify, filter the preferred list
of the chosen priority by availability, take the first 3, average the
estimated per-call costs, and build the reasoning sentence. -/
def routePrompt (prompt : String) (priority : RoutingPriority)
    (excludeProviders : List ProviderType) (env : ProviderType → Bool)
    (h : HealthMap) (now : Nat) : RoutingDecision :=
  let promptType := classifyPrompt prompt
  let availableProviders := getAvailableProviders env h now excludeProviders
  let availableModels := availableProviders.map (·.model)
  let recommendedModels := DEFAULT_ROUTING_RULES promptType priority
  let selectedModelNames :=
    (recommendedModels.filter fun m => availableModels.contains m).take 3
  let selectedModels := selectedModelNames.map
    fun modelName => { provider := (MODEL_CONFIGS modelName).provider,
                       model := modelName : Candidate }
  let estimatedCost :=
    if selectedModelNames.length > 0 then
      (selectedModelNames.map fun m => calculateActualCost m ⟨500, 150⟩).foldl (· + ·) 0
        / (selectedModelNames.length : ℚ)
    else 0
  let reasoning :=
    "Classified as " ++ promptTypeStr promptType ++ ". Optimizing for "
    ++ priorityStr priority ++ ". Selected " ++ toString selectedModels.length
    ++ " models: " ++ String.intercalate ", " (selectedModelNames.map modelKey) ++ "."
  { promptType, selectedModels, reasoning, estimatedCost, priority }

-- ---------------------------------------------------------------------------
-- `getModelResponseWithRouting`: the execution / fallback loop
-- ---------------------------------------------------------------------------

/-- One entry of the `providers` list of a completion-service result. -/
structure SvcProvider where
  model : String
  provider : ProviderType
deriving DecidableEq, Repr

/-- Record `ModelResponse` from `lib/models` (the wall-clock `latency` field
is not modelled). -/
structure ModelResponse where
  content : Option String := none
  providers : Option (List SvcProvider) := none
  routingDecision : RoutingDecision
  actualCost : Option ℚ := none
  error : Option String := none
deriving DecidableEq, Repr

/-- Outcome of one `notDiamond.create` call: either a result object or a
thrown error (which also covers the `detail`-field and empty-result cases the
source converts into throws). -/
inductive SvcResult where
  | ok (content : String) (providers : List SvcProvider) (usage : Option Usage)
  | raise (msg : String)

/-- Models the `routingDecision: \x7b\x7d as RoutingDecision` cast used by the
pre-checks of `getModelResponseWithRouting`. -/
def emptyRoutingDecision : RoutingDecision :=
  { promptType := .general_chat, selectedModels := [], reasoning := "",
    estimatedCost := 0, priority := .cost }

/-- The custom-rule override step (lines 126-135): look every custom model
name up among the available providers, and replace the selection when at
least one resolves. -/
def applyCustomRules (customRules : PromptType → Option (List ModelName))
    (env : ProviderType → Bool) (h : HealthMap) (now : Nat)
    (excluded : List ProviderType) (rd : RoutingDecision) : RoutingDecision :=
  match customRules rd.promptType with
  | none => rd
  | some models =>
    let availableProviders := getAvailableProviders env h now excluded
    let customModels := models.filterMap
      fun modelName => availableProviders.find? fun p => p.model == modelName
    if customModels.length > 0 then
      { rd with selectedModels := customModels,
                reasoning := rd.reasoning ++ " Applied custom rules." }
    else rd

/-- JS `a.endsWith(b)` on character lists. -/
def endsWithList (suf s : List Char) : Bool :=
  startsWithList suf.reverse s.reverse

/-- The `fullModelName` lookup of the success path (lines 156-158): the first
catalog key that ends with the returned model and starts with the returned
provider name. -/
def findFullModelName (used : SvcProvider) : Option ModelName :=
  allModelNames.find? fun k =>
    endsWithList used.model.toList (modelKey k).toList
    && startsWithList (providerStr used.provider).toList (modelKey k).toList

/-- The error message of the empty-selection early return (line 138). -/
def noModelsMsg (excluded : List ProviderType) : String :=
  "No available models left after excluding ["
  ++ String.intercalate ", " (excluded.map providerStr)
  ++ "]. Please check API keys or billing."

/-- The billing-error classifier of the catch block (line 181); its argument
is the already-lowercased error text. -/
def isBillingError (errorString : String) : Bool :=
  containsSubStr "credit" errorString || containsSubStr "quota" errorString
  || containsSubStr "billing" errorString || containsSubStr "429" errorString

/-- The provider-name matcher of the catch block (lines 185-189); its
argument is the already-lowercased error text. -/
def matchProviderInError (errorString : String) : Option ProviderType :=
  if containsSubStr "anthropic" errorString then some .anthropic
  else if containsSubStr "openai" errorString then some .openai
  else if containsSubStr "google" errorString then some .google
  else if containsSubStr "mistral" errorString then some .mistral
  else if containsSubStr "together" errorString then some .togetherai
  else none

/-- What the catch block decides: retry with a grown exclusion set, or stop
with a terminal error response.  Both carry the updated health map. -/
inductive FailStep where
  | retry (excluded : List ProviderType) (h : HealthMap)
  | stop (resp : ModelResponse) (h : HealthMap)

/-- The catch block of `getModelResponseWithRouting` (lines 168-201):
re-route (without custom rules), report a failure for the first candidate
provider when there is one, and retry with the failed provider excluded only
for billing-classified errors naming a not-yet-excluded provider. -/
def handleFailure (prompt : String) (priority : RoutingPriority)
    (env : ProviderType → Bool) (now : Nat) (msg : String)
    (excluded : List ProviderType) (h : HealthMap) : FailStep :=
  let rd2 := routePrompt prompt priority excluded env h now
  let firstProvider := rd2.selectedModels.head?.map (·.provider)
  let h2 := match firstProvider with
    | some p => reportFailure h p now
    | none => h
  let errorString := lowerString msg
  let terminal := FailStep.stop
    { error := some ("Routing failed: " ++ msg), routingDecision := rd2 } h2
  if isBillingError errorString then
    let failedProvider := match matchProviderInError errorString with
      | some p => some p
      | none => firstProvider
    match failedProvider with
    | some fp =>
      if !(excluded.contains fp) then FailStep.retry (excluded ++ [fp]) h2
      else terminal
    | none => terminal
  else terminal

/-- Result of one whole invocation: the response, the number of
completion-service calls made, and the final health map. -/
structure RunResult where
  resp : ModelResponse
  calls : Nat
  health : HealthMap

/-- How the try block reads one completion-service outcome: a missing or
`detail`-carrying result and an empty `providers` list are converted into
thrown errors (lines 149-150), every other success is kept whole. -/
def svcOutcome : SvcResult →
    Sum String (String × SvcProvider × List SvcProvider × Option Usage)
  | .ok content providers usage =>
    match providers with
    | [] => .inl "Routing was successful, but no model provider was returned."
    | first :: rest => .inr (content, first, first :: rest, usage)
  | .raise msg => .inl msg

/-- The bounded retry loop of `getModelResponseWithRouting` (lines 121-205),
with the remaining attempt budget as the recursion fuel and the number of
completion-service calls made so far threaded through.  When the budget is
exhausted the source re-routes once more and reports terminal failure
(lines 204-205). -/
def execAttempts (prompt : String) (priority : RoutingPriority)
    (customRules : PromptType → Option (List ModelName))
    (env : ProviderType → Bool) (now : Nat) (svc : Nat → SvcResult) :
    Nat → List ProviderType → HealthMap → Nat → RunResult
  | 0, excluded, h, calls =>
    ⟨{ error := some "All routing attempts failed. Please check your provider billing and API keys.",
       routingDecision := routePrompt prompt priority excluded env h now }, calls, h⟩
  | fuel + 1, excluded, h, calls =>
    let rd := applyCustomRules customRules env h now excluded
      (routePrompt prompt priority excluded env h now)
    if rd.selectedModels.length = 0 then
      ⟨{ error := some (noModelsMsg excluded), routingDecision := rd }, calls, h⟩
    else
      match svcOutcome (svc calls) with
      | .inr (content, first, providers, usage) =>
        let h2 := reportSuccess h first.provider
        let actualCost := match usage, findFullModelName first with
          | some u, some fm => calculateActualCost fm u
          | _, _ => rd.estimatedCost
        ⟨{ content := some content, providers := some providers,
           routingDecision := rd, actualCost := some actualCost }, calls + 1, h2⟩
      | .inl msg =>
        match handleFailure prompt priority env now msg excluded h with
        | .retry excluded2 h2 =>
          execAttempts prompt priority customRules env now svc fuel excluded2 h2 (calls + 1)
        | .stop resp h2 => ⟨resp, calls + 1, h2⟩

/-- JS guard `!prompt || !prompt.trim()`: the prompt is empty or
whitespace-only. -/
def promptIsBlank (prompt : String) : Bool :=
  prompt.toList.all Char.isWhitespace

/-- Function `getModelResponseWithRouting` (lines 108-206): input guards,
then the retry loop with `maxAttempts = 5`.  The presence of the NotDiamond
API key is the abstract boolean `ndKey`. -/
def getModelResponseWithRouting (prompt : String) (priority : RoutingPriority)
    (customRules : PromptType → Option (List ModelName))
    (env : ProviderType → Bool) (ndKey : Bool) (h0 : HealthMap) (now : Nat)
    (svc : Nat → SvcResult) : RunResult :=
  if promptIsBlank prompt then
    ⟨{ error := some "Prompt cannot be empty.", routingDecision := emptyRoutingDecision }, 0, h0⟩
  else if !ndKey then
    ⟨{ error := some "NotDiamond API key is not configured.", routingDecision := emptyRoutingDecision }, 0, h0⟩
  else
    execAttempts prompt priority customRules env now svc 5 [] h0 0

-- ---------------------------------------------------------------------------
-- Supporting lemmas
-- ---------------------------------------------------------------------------

/-- In the catalog, a model key starts with a provider name followed by a
slash exactly for the provider recorded in the model's own config. -/
theorem startsWith_providerKey : ∀ (p : ProviderType) (m : ModelName),
    startsWithList (providerStr p ++ "/").toList (modelKey m).toList = true
      ↔ p = (MODEL_CONFIGS m).provider := by
  decide

/-- Every model name is listed in `allModelNames`. -/
theorem mem_allModelNames (m : ModelName) : m ∈ allModelNames := by
  cases m <;> decide

/-- Every provider is listed in `potentialProviders`. -/
theorem mem_potentialProviders (p : ProviderType) : p ∈ potentialProviders := by
  cases p <;> decide

/-- Characterization of membership in `getAvailableProviders`: a candidate is
listed exactly when its provider has a key configured, is not excluded, is not
timed out, and the candidate pairs the model with its own catalog provider. -/
theorem mem_getAvailableProviders (env : ProviderType → Bool) (h : HealthMap)
    (now : Nat) (ex : List ProviderType) (c : Candidate) :
    c ∈ getAvailableProviders env h now ex ↔
      env c.provider = true ∧ ex.contains c.provider = false
      ∧ isTimedOut h now c.provider = false
      ∧ (MODEL_CONFIGS c.model).provider = c.provider := by
  unfold getAvailableProviders
  rw [List.mem_flatMap]
  constructor
  · rintro ⟨p, -, hc⟩
    by_cases hcond : (env p && !(ex.contains p) && !(isTimedOut h now p)) = true
    · rw [if_pos hcond] at hc
      rw [List.mem_map] at hc
      obtain ⟨m, hm, hcm⟩ := hc
      rw [List.mem_filter] at hm
      obtain ⟨-, hpref⟩ := hm
      subst hcm
      simp only [Bool.and_eq_true, Bool.not_eq_true'] at hcond
      exact ⟨hcond.1.1, hcond.1.2, hcond.2, ((startsWith_providerKey p m).mp hpref).symm⟩
    · rw [if_neg hcond] at hc
      exact absurd hc (List.not_mem_nil c)
  · rintro ⟨h1, h2, h3, h4⟩
    refine ⟨c.provider, mem_potentialProviders c.provider, ?_⟩
    rw [if_pos (show (env c.provider && !(ex.contains c.provider)
      && !(isTimedOut h now c.provider)) = true by rw [h1, h2, h3]; rfl)]
    rw [List.mem_map]
    refine ⟨c.model, ?_, ?_⟩
    · rw [List.mem_filter]
      exact ⟨mem_allModelNames c.model, (startsWith_providerKey _ _).mpr h4.symm⟩
    · cases c
      rfl

-- ---------------------------------------------------------------------------
-- C1
-- ---------------------------------------------------------------------------

/-- C1: every entry in the `selectedModels` list of the `RoutingDecision`
returned by `routePrompt` has a provider that is not in the exclusion set and
is not in cooldown (no `timeoutUntil` in the future) at the time of the call,
for every prompt, priority, exclusion set and health-tracker state. -/
theorem routePrompt_excludes_unavailable (prompt : String)
    (priority : RoutingPriority) (excludeProviders : List ProviderType)
    (env : ProviderType → Bool) (h : HealthMap) (now : Nat) (c : Candidate)
    (hc : c ∈ (routePrompt prompt priority excludeProviders env h now).selectedModels) :
    c.provider ∉ excludeProviders ∧ isTimedOut h now c.provider = false := by
  simp only [routePrompt] at hc
  rw [List.mem_map] at hc
  obtain ⟨m, hm, hcm⟩ := hc
  have hm2 := List.mem_of_mem_take hm
  rw [List.mem_filter] at hm2
  obtain ⟨-, hav⟩ := hm2
  rw [List.elem_iff, List.mem_map] at hav
  obtain ⟨c', hc', hc'm⟩ := hav
  rw [mem_getAvailableProviders] at hc'
  obtain ⟨-, hnex, hnto, hprov⟩ := hc'
  have hpc : c.provider = c'.provider := by
    subst hcm hc'm
    exact hprov
  rw [hpc]
  refine ⟨fun hmem => ?_, hnto⟩
  have helem : List.elem c'.provider excludeProviders = true := List.elem_iff.mpr hmem
  rw [show excludeProviders.contains c'.provider
        = List.elem c'.provider excludeProviders from rfl, helem] at hnex
  cases hnex

-- ---------------------------------------------------------------------------
-- C5
-- ---------------------------------------------------------------------------

/-- An environment in which every provider has an API key configured. -/
def envAll : ProviderType → Bool := fun _ => true

/-- Concrete instance of C1: a summarization routing call with mistral
excluded selects the anthropic candidate, whose provider is indeed neither
excluded nor in cooldown. -/
theorem routePrompt_excludes_unavailable_witness :
    ({ provider := .anthropic, model := .claude_3_haiku } : Candidate)
      ∈ (routePrompt "Summarize this article" .cost [.mistral] envAll
          (fun _ => none) 0).selectedModels
    ∧ (ProviderType.anthropic ∉ ([.mistral] : List ProviderType)
       ∧ isTimedOut (fun _ => none) 0 .anthropic = false) :=
  ⟨by decide,
   routePrompt_excludes_unavailable "Summarize this article" .cost [.mistral] envAll
     (fun _ => none) 0 { provider := .anthropic, model := .claude_3_haiku } (by decide)⟩

/-- An environment in which no provider has an API key configured. -/
def envNone : ProviderType → Bool := fun _ => false

/-- The health map before any failure was ever reported. -/
def freshHealth : HealthMap := fun _ => none

/-- One catalog model of each provider, used to exhibit availability. -/
def sampleModel : ProviderType → ModelName
  | .openai => .gpt_4o
  | .anthropic => .claude_3_5_sonnet
  | .google => .gemini_1_5_pro
  | .mistral => .mistral_large
  | .togetherai => .llama_3_1_70b

/-- Reading the updated provider back from `reportFailure`. -/
theorem reportFailure_same (h : HealthMap) (p : ProviderType) (now : Nat) :
    reportFailure h p now p
      = some ⟨((h p).getD ⟨0, none⟩).failureCount + 1,
          if ((h p).getD ⟨0, none⟩).failureCount + 1 ≥ 3
          then some (now + 5 * 60 * 1000)
          else ((h p).getD ⟨0, none⟩).timeoutUntil⟩ := by
  simp [reportFailure]

/-- C5: from a fresh health state, three consecutive `reportFailure` calls
make the availability check used by candidate filtering report the provider
as timed out (its models vanish from `getAvailableProviders`), and a single
subsequent `reportSuccess` resets the failure count to 0, clears the
cooldown, and makes the provider available again. -/
theorem health_circuit_breaker_round_trip (p : ProviderType) (now : Nat) :
    reportFailure (reportFailure (reportFailure freshHealth p now) p now) p now p
      = some ⟨3, some (now + 5 * 60 * 1000)⟩
    ∧ isTimedOut
        (reportFailure (reportFailure (reportFailure freshHealth p now) p now) p now) now p
      = true
    ∧ ((getAvailableProviders envAll
        (reportFailure (reportFailure (reportFailure freshHealth p now) p now) p now)
        now []).all fun c => !(c.provider == p)) = true
    ∧ reportSuccess
        (reportFailure (reportFailure (reportFailure freshHealth p now) p now) p now) p p
      = some ⟨0, none⟩
    ∧ isTimedOut
        (reportSuccess
          (reportFailure (reportFailure (reportFailure freshHealth p now) p now) p now) p)
        now p
      = false
    ∧ ((getAvailableProviders envAll
        (reportSuccess
          (reportFailure (reportFailure (reportFailure freshHealth p now) p now) p now) p)
        now []).any fun c => c.provider == p) = true := by
  have e1 : reportFailure freshHealth p now p = some ⟨1, none⟩ := by
    rw [reportFailure_same]
    simp [freshHealth]
  have e2 : reportFailure (reportFailure freshHealth p now) p now p = some ⟨2, none⟩ := by
    rw [reportFailure_same, e1]
    simp
  have e3 : reportFailure (reportFailure (reportFailure freshHealth p now) p now) p now p
      = some ⟨3, some (now + 5 * 60 * 1000)⟩ := by
    rw [reportFailure_same, e2]
    simp
  have eto : isTimedOut
      (reportFailure (reportFailure (reportFailure freshHealth p now) p now) p now) now p
      = true := by
    rw [isTimedOut, e3]
    simp
  have e4 : reportSuccess
      (reportFailure (reportFailure (reportFailure freshHealth p now) p now) p now) p p
      = some ⟨0, none⟩ := by
    rw [reportSuccess, e3]
    simp
  have eto4 : isTimedOut
      (reportSuccess
        (reportFailure (reportFailure (reportFailure freshHealth p now) p now) p now) p)
      now p = false := by
    rw [isTimedOut, e4]
  refine ⟨e3, eto, ?_, e4, eto4, ?_⟩
  · rw [List.all_eq_true]
    intro c hc
    rw [mem_getAvailableProviders] at hc
    have hto := hc.2.2.1
    simp only [Bool.not_eq_true', beq_eq_false_iff_ne, ne_eq]
    intro he
    rw [he, eto] at hto
    cases hto
  · rw [List.any_eq_true]
    refine ⟨⟨p, sampleModel p⟩, ?_, by simp⟩
    rw [mem_getAvailableProviders]
    exact ⟨rfl, rfl, eto4, by cases p <;> rfl⟩

-- ---------------------------------------------------------------------------
-- C2
-- ---------------------------------------------------------------------------

/-- Each loop round makes at most one completion-service call and consumes
one unit of the attempt budget. -/
theorem execAttempts_calls_le (prompt : String) (priority : RoutingPriority)
    (customRules : PromptType → Option (List ModelName)) (env : ProviderType → Bool)
    (now : Nat) (svc : Nat → SvcResult) :
    ∀ (fuel : Nat) (excluded : List ProviderType) (h : HealthMap) (calls : Nat),
      (execAttempts prompt priority customRules env now svc fuel excluded h calls).calls
        ≤ calls + fuel := by
  intro fuel
  induction fuel with
  | zero =>
    intro excluded h calls
    simp [execAttempts]
  | succ n ih =>
    intro excluded h calls
    rw [execAttempts]
    split
    · simp
    · split
      · simp
      · split
        · exact le_trans (ih _ _ _) (by omega)
        · simp

/-- C2: a single invocation of `getModelResponseWithRouting` performs at most
5 completion-service calls, for every prompt, priority, custom-rule set and
service behaviour (in particular under a service that always fails with a
billing error): the retry loop always terminates within 5 attempts. -/
theorem loop_calls_le_five (prompt : String) (priority : RoutingPriority)
    (customRules : PromptType → Option (List ModelName)) (env : ProviderType → Bool)
    (ndKey : Bool) (h0 : HealthMap) (now : Nat) (svc : Nat → SvcResult) :
    (getModelResponseWithRouting prompt priority customRules env ndKey h0 now svc).calls
      ≤ 5 := by
  rw [getModelResponseWithRouting]
  split
  · simp
  · split
    · simp
    · simpa using
        execAttempts_calls_le prompt priority customRules env now svc 5 [] h0 0

-- ---------------------------------------------------------------------------
-- C4 and C10
-- ---------------------------------------------------------------------------

/-- Modelled from the spec: the ordered list of pattern-rule groups of the
classifier, in the stated precedence order math/logic, code, summarization,
translation, analysis, creative writing, complex Q&A, simple Q&A. -/
def specRuleList : List ((String → Bool) × PromptType) :=
  [(mathRule, .math_logic), (codeRule, .code_generation),
   (summarizationRule, .summarization), (translationRule, .translation),
   (analysisRule, .analysis), (creativeRule, .creative_writing),
   (qaComplexRule, .qa_complex), (qaSimpleRule, .qa_simple)]

/-- Modelled from the spec: return the category of the first rule group that
matches; unmatched input yields `general_chat`. -/
def firstMatching : List ((String → Bool) × PromptType) → String → PromptType
  | [], _ => .general_chat
  | (ruleTest, cat) :: rest, s => if ruleTest s then cat else firstMatching rest s

/-- C4: `classifyPrompt` is total and returns, for every input string, the
category of the first matching rule group in the fixed precedence order
math/logic, code, summarization, translation, analysis, creative writing,
complex Q&A, simple Q&A, and `general_chat` when no rule matches; a prompt
matching a higher-precedence group therefore yields that category no matter
which lower-precedence keywords also appear. -/
theorem classifyPrompt_first_match (s : String) :
    classifyPrompt s = firstMatching specRuleList s := rfl

/-- C10: any string containing a decimal digit or one of the characters
`+ - * / =` anywhere is classified `math_logic`, regardless of any other
keywords present. -/
theorem mathChar_forces_math_logic (s : String)
    (hs : s.toList.any isMathChar = true) :
    classifyPrompt s = .math_logic := by
  have hm : mathRule s = true := by
    rw [mathRule, hs, Bool.or_true]
  simp [classifyPrompt, hm]

/-- Concrete instance of C10: a code-fix prompt containing a hyphen is
classified `math_logic`, not `code_generation`. -/
theorem mathChar_forces_math_logic_witness :
    ("fix this bug - urgent".toList.any isMathChar = true)
    ∧ classifyPrompt "fix this bug - urgent" = .math_logic :=
  ⟨by decide, mathChar_forces_math_logic "fix this bug - urgent" (by decide)⟩

-- ---------------------------------------------------------------------------
-- C3
-- ---------------------------------------------------------------------------

/-- Every preference list of the routing table has exactly 3 entries. -/
theorem rules_length_three : ∀ (pt : PromptType) (pr : RoutingPriority),
    (DEFAULT_ROUTING_RULES pt pr).length = 3 := by
  decide

/-- Counterexample to C3: with google and anthropic excluded, only one
preferred model of the `general_chat`/`cost` list survives filtering, other
priorities of the same category still have available models that were not
selected (for example `gpt-4o-mini` from the `latency` list), and yet
`routePrompt` returns the single survivor without topping the list up. -/
theorem routePrompt_no_topup_cex :
    (routePrompt "hello" .cost [.google, .anthropic] envAll freshHealth 0).selectedModels
      = [{ provider := .openai, model := .gpt_3_5_turbo }]
    ∧ ({ provider := .openai, model := .gpt_4o_mini } : Candidate)
        ∈ getAvailableProviders envAll freshHealth 0 [.google, .anthropic]
    ∧ ModelName.gpt_4o_mini ∈ DEFAULT_ROUTING_RULES .general_chat .latency
    ∧ ({ provider := .openai, model := .gpt_4o_mini } : Candidate)
        ∉ (routePrompt "hello" .cost [.google, .anthropic] envAll freshHealth 0).selectedModels := by
  refine ⟨by decide, by decide, by decide, by decide⟩

/-- C3 amended: `routePrompt` never tops the candidate list up from the other
two priorities; the selection is exactly the chosen priority's 3-entry
preference list filtered by availability (order preserved), so the result is
capped at 3 candidates, not 5. -/
theorem routePrompt_filter_take_three (prompt : String) (priority : RoutingPriority)
    (excludeProviders : List ProviderType) (env : ProviderType → Bool)
    (h : HealthMap) (now : Nat) :
    (routePrompt prompt priority excludeProviders env h now).selectedModels
      = ((DEFAULT_ROUTING_RULES (classifyPrompt prompt) priority).filter fun m =>
          ((getAvailableProviders env h now excludeProviders).map (·.model)).contains m).map
          (fun m => { provider := (MODEL_CONFIGS m).provider, model := m })
    ∧ (routePrompt prompt priority excludeProviders env h now).selectedModels.length ≤ 3 := by
  have hlen : ((DEFAULT_ROUTING_RULES (classifyPrompt prompt) priority).filter fun m =>
      ((getAvailableProviders env h now excludeProviders).map (·.model)).contains m).length
      ≤ 3 := by
    calc ((DEFAULT_ROUTING_RULES (classifyPrompt prompt) priority).filter fun m =>
        ((getAvailableProviders env h now excludeProviders).map (·.model)).contains m).length
        ≤ (DEFAULT_ROUTING_RULES (classifyPrompt prompt) priority).length :=
          List.length_filter_le _ _
      _ = 3 := rules_length_three _ _
  constructor
  · simp only [routePrompt]
    rw [List.take_of_length_le hlen]
  · simp only [routePrompt, List.length_map]
    exact le_trans (List.length_take_le 3 _) (le_refl 3)

-- ---------------------------------------------------------------------------
-- C9
-- ---------------------------------------------------------------------------

/-- Modelled from the spec: the estimated per-call cost of a model with the
fixed assumed token mix of 500 input / 150 output tokens. -/
def specEstCost (m : ModelName) : ℚ :=
  500 / 1000000 * (MODEL_CONFIGS m).cost.input
  + 150 / 1000000 * (MODEL_CONFIGS m).cost.output

/-- The code's per-call estimate agrees with the spec formula. -/
theorem calculateActualCost_estimate (m : ModelName) :
    calculateActualCost m ⟨500, 150⟩ = specEstCost m := by
  simp [calculateActualCost, specEstCost]

/-- Every per-call estimate is non-negative. -/
theorem specEstCost_nonneg (m : ModelName) : 0 ≤ specEstCost m := by
  cases m <;> norm_num [specEstCost, MODEL_CONFIGS]

/-- C9: the `estimatedCost` of every `RoutingDecision` returned by
`routePrompt` is the arithmetic mean over the selected models of
`(500/1e6) * inputPrice + (150/1e6) * outputPrice`, is 0 when the selection
is empty, and is therefore always non-negative. -/
theorem estimatedCost_mean_nonneg (prompt : String) (priority : RoutingPriority)
    (excludeProviders : List ProviderType) (env : ProviderType → Bool)
    (h : HealthMap) (now : Nat) :
    (routePrompt prompt priority excludeProviders env h now).estimatedCost
      = (if (routePrompt prompt priority excludeProviders env h now).selectedModels = []
         then 0
         else ((routePrompt prompt priority excludeProviders env h now).selectedModels.map
                fun c => specEstCost c.model).sum
              / ((routePrompt prompt priority excludeProviders env h now).selectedModels.length : ℚ))
    ∧ 0 ≤ (routePrompt prompt priority excludeProviders env h now).estimatedCost := by
  simp only [routePrompt]
  generalize ((DEFAULT_ROUTING_RULES (classifyPrompt prompt) priority).filter fun m =>
    ((getAvailableProviders env h now excludeProviders).map (·.model)).contains m).take 3 = ns
  constructor
  · simp only [List.map_map, List.length_map]
    by_cases hns : ns = []
    · subst hns
      simp
    · rw [if_pos (by simpa [gt_iff_lt, List.length_pos] using hns),
          if_neg (by simpa using hns)]
      have hgm : ns.map ((fun c : Candidate => specEstCost c.model)
          ∘ fun modelName => { provider := (MODEL_CONFIGS modelName).provider,
                               model := modelName })
          = ns.map fun m => calculateActualCost m ⟨500, 150⟩ := by
        refine List.map_congr_left fun m _ => ?_
        simp [calculateActualCost_estimate]
      rw [hgm, List.sum_eq_foldl]
  · split
    · have hpos : 0 < (ns.length : ℚ) := by
        rename_i hlen
        rw [gt_iff_lt, ← Nat.cast_pos (α := ℚ)] at hlen
        exact hlen
      refine div_nonneg ?_ (le_of_lt hpos)
      rw [← List.sum_eq_foldl]
      refine List.sum_nonneg fun x hx => ?_
      rw [List.mem_map] at hx
      obtain ⟨m, -, rfl⟩ := hx
      rw [calculateActualCost_estimate]
      exact specEstCost_nonneg m
    · exact le_refl 0

-- ---------------------------------------------------------------------------
-- C6
-- ---------------------------------------------------------------------------

/-- The keyword list the spec claims the billing classifier matches. -/
def specBillingKeywords : List String :=
  ["credit", "quota", "billing", "429", "402", "insufficient funds", "rate limit"]

/-- Is a catch-block decision the terminal (non-retry) one? -/
def isStopStep : FailStep → Bool
  | .retry _ _ => false
  | .stop _ _ => true

/-- Extract the updated health map from a catch-block decision. -/
def healthOfStep : FailStep → HealthMap
  | .retry _ h => h
  | .stop _ h => h

/-- Counterexample to C6: an error text containing the spec keyword `402`
(and none of the four keywords the code checks) is not classified as a
billing error by `isBillingError`. -/
theorem isBillingError_spec_keywords_cex :
    (specBillingKeywords.any fun kw =>
      containsSubStr kw (lowerString "Error 402: Payment Required")) = true
    ∧ isBillingError (lowerString "Error 402: Payment Required") = false := by
  refine ⟨by decide, by decide⟩

/-- C6 amended: a completion-service failure is classified as a billing/quota
error (and with that made eligible for the exclude-and-retry path) exactly
when the lowercased error text contains one of the keywords `credit`,
`quota`, `billing`, `429`; errors not so classified never take the retry
path. -/
theorem isBillingError_keywords (msg prompt : String) (priority : RoutingPriority)
    (env : ProviderType → Bool) (now : Nat) (excluded : List ProviderType)
    (h : HealthMap) :
    (isBillingError (lowerString msg) = true
      ↔ ((["credit", "quota", "billing", "429"] : List String).any fun kw =>
          containsSubStr kw (lowerString msg)) = true)
    ∧ (isBillingError (lowerString msg) = false →
        isStopStep (handleFailure prompt priority env now msg excluded h) = true) := by
  constructor
  · simp [isBillingError, List.any_cons, List.any_nil, Bool.or_assoc]
  · intro hnb
    simp [handleFailure, hnb, isStopStep]

/-- Concrete instance of the amended C6: an unclassified error stops the
loop. -/
theorem isBillingError_keywords_witness :
    isBillingError (lowerString "network interrupted") = false
    ∧ isStopStep (handleFailure "hello" .cost envAll 0 "network interrupted" [] freshHealth)
        = true :=
  ⟨by decide,
   (isBillingError_keywords "network interrupted" "hello" .cost envAll 0 [] freshHealth).2
     (by decide)⟩

-- ---------------------------------------------------------------------------
-- C7
-- ---------------------------------------------------------------------------

/-- Counterexample to C7: the error text names anthropic (and the matcher
finds it), but the failure is reported against google, the first candidate's
provider; anthropic's health state stays untouched. -/
theorem handleFailure_reportFailure_target_cex :
    matchProviderInError (lowerString "429 anthropic credit too low") = some .anthropic
    ∧ healthOfStep
        (handleFailure "hello" .cost envAll 0 "429 anthropic credit too low" [] freshHealth)
        ProviderType.google = some ⟨1, none⟩
    ∧ healthOfStep
        (handleFailure "hello" .cost envAll 0 "429 anthropic credit too low" [] freshHealth)
        ProviderType.anthropic = none := by
  refine ⟨by decide, by decide, by decide⟩

/-- C7 amended: on every completion-service failure, `reportFailure` is
invoked exactly once and always for the first candidate's provider of the
re-routed decision (no report when that decision has no candidates); the
provider matched in the error text influences only which provider gets
excluded. -/
theorem handleFailure_reports_first_candidate (prompt : String)
    (priority : RoutingPriority) (env : ProviderType → Bool) (now : Nat)
    (msg : String) (excluded : List ProviderType) (h : HealthMap) :
    healthOfStep (handleFailure prompt priority env now msg excluded h)
      = (match (routePrompt prompt priority excluded env h now).selectedModels.head? with
         | some c => reportFailure h c.provider now
         | none => h) := by
  cases hh : (routePrompt prompt priority excluded env h now).selectedModels.head? with
  | none =>
    simp only [handleFailure, hh, Option.map_none']
    split <;> first
      | rfl
      | (split <;> first | (split <;> rfl) | rfl)
  | some c =>
    simp only [handleFailure, hh, Option.map_some']
    split <;> first
      | rfl
      | (split <;> first | (split <;> rfl) | rfl)

-- ---------------------------------------------------------------------------
-- C8
-- ---------------------------------------------------------------------------

/-- C8: whenever the routing decision of an attempt (custom rules applied)
has an empty `selectedModels` list, the loop terminates on that attempt with
the descriptive no-models-available error carrying that decision, and makes
no completion-service call for that attempt; in particular a first attempt
with an empty decision makes the whole invocation return that error with
zero calls. -/
theorem routing_empty_no_call (prompt : String) (priority : RoutingPriority)
    (customRules : PromptType → Option (List ModelName)) (env : ProviderType → Bool)
    (ndKey : Bool) (h0 h : HealthMap) (now : Nat) (svc : Nat → SvcResult)
    (fuel : Nat) (excluded : List ProviderType) (calls : Nat) :
    ((applyCustomRules customRules env h now excluded
        (routePrompt prompt priority excluded env h now)).selectedModels.length = 0 →
      execAttempts prompt priority customRules env now svc (fuel + 1) excluded h calls
        = ⟨{ error := some (noModelsMsg excluded),
             routingDecision := applyCustomRules customRules env h now excluded
               (routePrompt prompt priority excluded env h now) }, calls, h⟩)
    ∧ (promptIsBlank prompt = false → ndKey = true →
        (applyCustomRules customRules env h0 now []
          (routePrompt prompt priority [] env h0 now)).selectedModels.length = 0 →
        getModelResponseWithRouting prompt priority customRules env ndKey h0 now svc
          = ⟨{ error := some (noModelsMsg []),
               routingDecision := applyCustomRules customRules env h0 now []
                 (routePrompt prompt priority [] env h0 now) }, 0, h0⟩) := by
  constructor
  · intro hempty
    rw [execAttempts, if_pos hempty]
  · intro ht hk hempty
    subst hk
    rw [getModelResponseWithRouting, if_neg (by simp [ht])]
    have h5 : (5 : Nat) = 4 + 1 := rfl
    simp only [Bool.not_true, Bool.false_eq_true, if_false, h5]
    rw [execAttempts, if_pos hempty]

/-- Concrete instance of C8 (the no-credentials scenario): with no provider
API keys configured, the first attempt returns the no-models error with zero
completion-service calls. -/
theorem routing_empty_no_call_witness :
    promptIsBlank "hi" = false
    ∧ (applyCustomRules (fun _ => none) envNone freshHealth 0 []
        (routePrompt "hi" .cost [] envNone freshHealth 0)).selectedModels.length = 0
    ∧ getModelResponseWithRouting "hi" .cost (fun _ => none) envNone true freshHealth 0
        (fun _ => .raise "boom")
      = ⟨{ error := some (noModelsMsg []),
           routingDecision := applyCustomRules (fun _ => none) envNone freshHealth 0 []
             (routePrompt "hi" .cost [] envNone freshHealth 0) }, 0, freshHealth⟩ :=
  ⟨by decide, by decide,
   (routing_empty_no_call "hi" .cost (fun _ => none) envNone true freshHealth freshHealth 0
     (fun _ => .raise "boom") 0 [] 0).2 (by decide) rfl (by decide)⟩

end LlmRouter
